import Mathlib

/-!
Shallow embedding of the scoreboard core of `src/app.js`
(class_competition_312): the `ScoreboardState` class (levels, lock,
day key, persistence through `localStorage`) and its timer discipline
(`scheduleMidnightReset`, the visibility-change handler).

Modelling conventions:
* machine time (`Date.now()`) and the zone-formatted current date
  (`todayKey()`) are ambient effects in JS; here they are explicit
  parameters `now : Int` and `today : String`;
* `localStorage` holds at most one blob under the single storage key;
  a blob either parses to a `StoredRecord` or is `corrupt`
  (`JSON.parse` throwing, caught by `loadOrInit`);
* absent JSON fields are `Option`s; the JS `x || default` idiom on
  `tz` / `maxLevels` (falsy on `""` / `0`) is `jsOrStr` / `jsOrInt`;
* the browser timer runtime is a list of pending one-shot timers plus
  a fresh-id counter; `setTimeout` appends, `clearTimeout` removes by
  id, and firing a timer removes it and runs the callback's body.
-/

/-- `CONFIG.LANES` -/
def LANES : Nat := 6

/-- `CONFIG.MAX_LEVELS` -/
def MAX_LEVELS : Int := 20

/-- `CONFIG.TIMEZONE` -/
def TIMEZONE : String := "Asia/Taipei"

/-- The `24 * 60 * 60 * 1000` milliseconds added in `msUntilNextMidnight`. -/
def DAY_MS : Int := 86400000

/-- The persisted record shape written by `save` and read by `loadOrInit`
(section 6 of the design: `version`, `tz`, `dateKey`, `levels`,
`maxLevels`, `lastUpdated`). Fields a parsed JSON object may lack are
`Option`s. -/
structure StoredRecord where
  version : Option Int
  tz : Option String
  dateKey : Option String
  levels : List Int
  maxLevels : Option Int
  lastUpdated : Int
  deriving DecidableEq, Repr

/-- Content of the storage slot: either a parseable record or garbage on
which `JSON.parse` throws (caught inside `loadOrInit`). -/
inductive Blob
  | corrupt : Blob
  | record : StoredRecord → Blob
  deriving DecidableEq, Repr

/-- In-memory fields of the `ScoreboardState` class (constructor,
lines 19-28 of `src/app.js`), minus the two timer handles which live in
`App` below. -/
structure ScoreboardState where
  levels : List Int
  maxLevels : Int
  timezone : String
  dateKey : String
  lastUpdated : Int
  isLocked : Bool
  deriving DecidableEq, Repr

/-- A scoreboard state together with the storage slot it persists to. -/
structure Sys where
  st : ScoreboardState
  store : Option Blob
  deriving DecidableEq, Repr

/-- JS `v || d` for an optional string field: `""` is falsy. Used for
`data.tz || CONFIG.TIMEZONE` in `loadOrInit`. -/
def jsOrStr (v : Option String) (d : String) : String :=
  match v with
  | some s => if s = "" then d else s
  | none => d

/-- JS `v || d` for an optional integer field: `0` is falsy. Used for
`data.maxLevels || CONFIG.MAX_LEVELS` in `loadOrInit`. -/
def jsOrInt (v : Option Int) (d : Int) : Int :=
  match v with
  | some m => if m = 0 then d else m
  | none => d

/-- The `ScoreboardState` constructor (lines 19-28). -/
def initState (now : Int) : ScoreboardState :=
  { levels := List.replicate LANES 0
    maxLevels := MAX_LEVELS
    timezone := TIMEZONE
    dateKey := ""
    lastUpdated := now
    isLocked := false }

/-- The record object built inside `save` (lines 82-96): fresh
`Date.now()` stamp, current in-memory fields. -/
def saveRecord (now : Int) (st : ScoreboardState) : StoredRecord :=
  { version := some 1
    tz := some st.timezone
    dateKey := some st.dateKey
    levels := st.levels
    maxLevels := some st.maxLevels
    lastUpdated := now }

/-- `save()` (lines 82-96): serialize the current state into the storage
slot. The write-failure path only logs, so the success path is modelled. -/
def save (now : Int) (s : Sys) : Sys :=
  { s with store := some (Blob.record (saveRecord now s.st)) }

/-- `resetForNewDay()` (lines 99-104): zero all lanes, set `dateKey` to
`todayKey()`, stamp `lastUpdated`, persist. -/
def resetForNewDay (today : String) (now : Int) (s : Sys) : Sys :=
  save now
    { s with st :=
      { s.st with
          levels := List.replicate LANES 0
          dateKey := today
          lastUpdated := now } }

/-- `loadOrInit()` (lines 56-79): adopt the stored record when it parses
and `data.dateKey === today && data.version === 1`; on missing blob,
parse failure, or mismatch fall back to `resetForNewDay()` and return
`false`. -/
def loadOrInit (today : String) (now : Int) (s : Sys) : Bool × Sys :=
  match s.store with
  | some (Blob.record d) =>
    if d.dateKey = some today ∧ d.version = some 1 then
      (true,
        { s with st :=
          { levels := d.levels
            maxLevels := jsOrInt d.maxLevels MAX_LEVELS
            timezone := jsOrStr d.tz TIMEZONE
            dateKey := d.dateKey.getD ""
            lastUpdated := d.lastUpdated
            isLocked := s.st.isLocked } })
    else
      (false, resetForNewDay today now s)
  | _ => (false, resetForNewDay today now s)

/-- `increment(lane)` (lines 107-116): `false` if locked or
`lane < 0 || lane >= CONFIG.LANES`; otherwise, when
`this.levels[lane] < this.maxLevels`, bump the lane, stamp
`lastUpdated`, persist and return `true`, else return `false`.
An out-of-bounds read (`undefined`) fails the `<` comparison, which is
the `none` branch of `get?`. -/
def increment (lane : Int) (now : Int) (s : Sys) : Bool × Sys :=
  if s.st.isLocked ∨ lane < 0 ∨ (LANES : Int) ≤ lane then (false, s)
  else
    match s.st.levels.get? lane.toNat with
    | some v =>
      if v < s.st.maxLevels then
        (true, save now
          { s with st :=
            { s.st with
                levels := s.st.levels.set lane.toNat (v + 1)
                lastUpdated := now } })
      else (false, s)
    | none => (false, s)

/-- `decrement(lane)` (lines 119-128): symmetric to `increment` with the
guard `this.levels[lane] > 0`. -/
def decrement (lane : Int) (now : Int) (s : Sys) : Bool × Sys :=
  if s.st.isLocked ∨ lane < 0 ∨ (LANES : Int) ≤ lane then (false, s)
  else
    match s.st.levels.get? lane.toNat with
    | some v =>
      if 0 < v then
        (true, save now
          { s with st :=
            { s.st with
                levels := s.st.levels.set lane.toNat (v - 1)
                lastUpdated := now } })
      else (false, s)
    | none => (false, s)

/-- `resetToday()` (lines 131-135): zero all lanes, stamp `lastUpdated`,
persist; `dateKey` and `isLocked` untouched. Note the source has no lock
check here. -/
def resetToday (now : Int) (s : Sys) : Sys :=
  save now
    { s with st :=
      { s.st with
          levels := List.replicate LANES 0
          lastUpdated := now } }

/-- `toggleLock()` (lines 138-142): flip `isLocked`, persist, return the
new flag. -/
def toggleLock (now : Int) (s : Sys) : Bool × Sys :=
  ((!s.st.isLocked),
    save now { s with st := { s.st with isLocked := !s.st.isLocked } })

/-- The two timer callbacks appearing in the source. -/
inductive TimerKind
  | midnight
  | visibility
  deriving DecidableEq, Repr

/-- A pending `setTimeout`: its handle, absolute fire time, and which
callback it runs. -/
structure Timer where
  id : Nat
  fireAt : Int
  kind : TimerKind
  deriving DecidableEq, Repr

/-- The application with its timer runtime: the scoreboard plus the two
handle fields `midnightTimer` / `visibilityTimer` of `ScoreboardState`
and the browser's set of pending timeouts. -/
structure App where
  sys : Sys
  midnightTimer : Option Nat
  visibilityTimer : Option Nat
  pending : List Timer
  nextId : Nat
  deriving DecidableEq, Repr

/-- `setTimeout(cb, delay)` at absolute time `fireAt`: registers a fresh
pending timer and returns its handle. -/
def setTimeout (k : TimerKind) (fireAt : Int) (a : App) : Nat × App :=
  (a.nextId,
    { a with
        pending := a.pending ++ [⟨a.nextId, fireAt, k⟩]
        nextId := a.nextId + 1 })

/-- `clearTimeout(h)` on an optional handle (a no-op on an absent or
already-fired handle, as in the browser). -/
def clearTimeout (h : Option Nat) (a : App) : App :=
  match h with
  | some id => { a with pending := a.pending.filter (fun t => t.id ≠ id) }
  | none => a

/-- Number of pending timers running a given callback. -/
def pendingCount (k : TimerKind) (a : App) : Nat :=
  (a.pending.filter (fun t => t.kind = k)).length

/-- `msUntilNextMidnight()` (lines 46-53): `dayStart now` models
`new Date(fmt.format(now) + 'T00:00:00')`, the start-of-day instant of
the zone-formatted current date; the code returns
`(dayStart now + 24h) - now`. -/
def msUntilNextMidnight (dayStart : Int → Int) (now : Int) : Int :=
  (dayStart now + DAY_MS) - now

/-- `scheduleMidnightReset()` (lines 145-156): clear any pending
midnight handle, then arm a one-shot timer `msUntilNextMidnight()` from
now and store its handle. -/
def scheduleMidnightReset (dayStart : Int → Int) (now : Int) (a : App) : App :=
  let a1 := clearTimeout a.midnightTimer a
  let r := setTimeout TimerKind.midnight (now + msUntilNextMidnight dayStart now) a1
  { r.2 with midnightTimer := some r.1 }

/-- The midnight timer with handle `id` fires at time `now`: the runtime
drops it from the pending set, then the callback body of lines 151-155
runs `this.resetForNewDay()` — and then aborts. The next statement,
`this.render()` (line 153), is a call on the `ScoreboardState` instance,
which has no `render` method (`render` exists only on
`ScoreboardRenderer`), so it throws a TypeError that propagates to the
global error handler; the `this.scheduleMidnightReset()` on line 154
therefore never executes and no new midnight timer is armed. -/
def fireMidnight (today : String) (now : Int) (id : Nat) (a : App) : App :=
  let a1 : App := { a with pending := a.pending.filter (fun t => t.id ≠ id) }
  { a1 with sys := resetForNewDay today now a1.sys }

/-- The `visibilitychange` handler on becoming visible (lines 335-348):
`this.state.visibilityTimer = setTimeout(..., 1000)` — the new handle
overwrites the field, and no `clearTimeout` is issued for a previously
pending reconciliation timer. -/
def visibilityShow (now : Int) (a : App) : App :=
  let r := setTimeout TimerKind.visibility (now + 1000) a
  { r.2 with visibilityTimer := some r.1 }

/-- The visibility timer with handle `id` fires at time `now`: the
runtime drops it from the pending set, then the callback compares
`todayKey()` against `dateKey` and rolls over on mismatch
(lines 339-345). -/
def fireVisibility (today : String) (now : Int) (id : Nat) (a : App) : App :=
  let a1 : App := { a with pending := a.pending.filter (fun t => t.id ≠ id) }
  if a1.sys.st.dateKey ≠ today then
    { a1 with sys := resetForNewDay today now a1.sys }
  else a1

/-- The data-model invariant of section 3 of the design: `levels` has
exactly `LANES` entries and every entry lies in `[0, maxLevels]`. -/
def StateInv (st : ScoreboardState) : Prop :=
  st.levels.length = LANES ∧ ∀ v ∈ st.levels, 0 ≤ v ∧ v ≤ st.maxLevels

instance (st : ScoreboardState) : Decidable (StateInv st) := by
  unfold StateInv; infer_instance

/-- Handle discipline for the midnight timer: every pending midnight
timer is the one the `midnightTimer` field refers to. Holds initially
(no pending timers) and is maintained by the scheduler. -/
def MidnightUnique (a : App) : Prop :=
  ∀ t ∈ a.pending, t.kind = TimerKind.midnight → a.midnightTimer = some t.id

instance (a : App) : Decidable (MidnightUnique a) := by
  unfold MidnightUnique; infer_instance

/-! ### Concrete example states used by witnesses and counterexamples -/

def lockedSysC2 : Sys :=
  { st := { levels := [3, 0, 0, 0, 0, 0], maxLevels := 20, timezone := "Asia/Taipei",
            dateKey := "2023-05-05", lastUpdated := 0, isLocked := true },
    store := none }

def badStoreC1 : Sys :=
  { st := initState 0,
    store := some (Blob.record
      { version := some 1, tz := some "Asia/Taipei", dateKey := some "2023-01-02",
        levels := [25, 0, 0, 0, 0, 0], maxLevels := some 20, lastUpdated := 0 }) }

def freshSysC1 : Sys := { st := initState 0, store := none }

def sysC3 : Sys :=
  { st := { levels := [0, 0, 20, 0, 0, 5], maxLevels := 20, timezone := "Asia/Taipei",
            dateKey := "2023-05-05", lastUpdated := 0, isLocked := false },
    store := none }

def staleSysC5 : Sys :=
  { st := initState 0,
    store := some (Blob.record
      { version := some 1, tz := some "Asia/Taipei", dateKey := some "2023-01-01",
        levels := [5, 0, 0, 0, 0, 0], maxLevels := some 20, lastUpdated := 0 }) }

def sysC6 : Sys :=
  { st := { levels := [1, 2, 3, 4, 5, 6], maxLevels := 20, timezone := "Asia/Taipei",
            dateKey := "2023-05-05", lastUpdated := 0, isLocked := false },
    store := none }

def appC7 : App :=
  { sys := { st := initState 0, store := none }
    midnightTimer := none
    visibilityTimer := none
    pending := []
    nextId := 1 }

def appC8 : App :=
  { sys := { st := initState 0, store := none }
    midnightTimer := none
    visibilityTimer := none
    pending := []
    nextId := 1 }

def sysC10 : Sys := { st := initState 0, store := none }

/-! ### Shared helper lemmas -/

theorem maxLevels_nonneg_of_inv {st : ScoreboardState} (h : StateInv st) :
    0 ≤ st.maxLevels := by
  obtain ⟨hlen, hb⟩ := h
  have hne : 0 < st.levels.length := by rw [hlen]; decide
  obtain ⟨v, hv⟩ := List.exists_mem_of_length_pos hne
  exact le_trans (hb v hv).1 (hb v hv).2

theorem stateInv_replicate_zero {st : ScoreboardState}
    (hl : st.levels = List.replicate LANES 0) (hm : 0 ≤ st.maxLevels) :
    StateInv st := by
  refine ⟨by rw [hl]; simp, ?_⟩
  intro v hv
  rw [hl] at hv
  rw [List.eq_of_mem_replicate hv]
  exact ⟨le_refl 0, hm⟩

theorem stateInv_set {st : ScoreboardState} (h : StateInv st) {i : Nat}
    {w lu : Int} (hw : 0 ≤ w ∧ w ≤ st.maxLevels) :
    StateInv { st with levels := st.levels.set i w, lastUpdated := lu } := by
  obtain ⟨hlen, hb⟩ := h
  refine ⟨by simp [hlen], ?_⟩
  intro v hv
  rcases List.mem_or_eq_of_mem_set hv with hv' | rfl
  · exact hb v hv'
  · exact hw

theorem loadOrInit_adopt {s : Sys} {r : StoredRecord} {today : String} {now : Int}
    (hr : s.store = some (Blob.record r))
    (hd : r.dateKey = some today) (hv : r.version = some 1) :
    loadOrInit today now s = (true,
      { s with st :=
        { levels := r.levels
          maxLevels := jsOrInt r.maxLevels MAX_LEVELS
          timezone := jsOrStr r.tz TIMEZONE
          dateKey := today
          lastUpdated := r.lastUpdated
          isLocked := s.st.isLocked } }) := by
  unfold loadOrInit
  rw [hr]
  simp [hd, hv]

theorem loadOrInit_reset {s : Sys} {today : String} {now : Int}
    (hna : ∀ r, s.store = some (Blob.record r) →
      ¬(r.dateKey = some today ∧ r.version = some 1)) :
    loadOrInit today now s = (false, resetForNewDay today now s) := by
  match hs : s.store with
  | none => unfold loadOrInit; rw [hs]
  | some Blob.corrupt => unfold loadOrInit; rw [hs]
  | some (Blob.record r) =>
    unfold loadOrInit
    rw [hs]
    simp [hna r hs]

theorem loadOrInit_fst_true_iff (s : Sys) (today : String) (now : Int) :
    (loadOrInit today now s).1 = true ↔
      ∃ r, s.store = some (Blob.record r) ∧
        r.dateKey = some today ∧ r.version = some 1 := by
  constructor
  · intro h1
    by_cases hex : ∃ r, s.store = some (Blob.record r) ∧
        r.dateKey = some today ∧ r.version = some 1
    · exact hex
    · exfalso
      have hna : ∀ r, s.store = some (Blob.record r) →
          ¬(r.dateKey = some today ∧ r.version = some 1) := by
        intro r hr hc
        exact hex ⟨r, hr, hc.1, hc.2⟩
      rw [loadOrInit_reset hna] at h1
      cases h1
  · rintro ⟨r, hs, hd, hv⟩
    rw [loadOrInit_adopt hs hd hv]

theorem clearTimeout_sys (h : Option Nat) (a : App) :
    (clearTimeout h a).sys = a.sys := by
  cases h <;> rfl

theorem clearTimeout_nextId (h : Option Nat) (a : App) :
    (clearTimeout h a).nextId = a.nextId := by
  cases h <;> rfl

theorem cleared_midnight_nil (a : App) (h : MidnightUnique a) :
    (clearTimeout a.midnightTimer a).pending.filter
      (fun t => t.kind = TimerKind.midnight) = [] := by
  rw [List.filter_eq_nil_iff]
  intro t ht
  cases hm : a.midnightTimer with
  | none =>
    rw [hm] at ht
    have := h t ht
    intro hk
    rw [hm] at this
    cases this (by simpa using hk)
  | some i =>
    rw [hm] at ht
    simp only [clearTimeout, List.mem_filter] at ht
    intro hk
    have := h t ht.1 (by simpa using hk)
    rw [hm] at this
    have hid : t.id = i := by cases this; rfl
    simp [hid] at ht

theorem scheduleMidnightReset_spec (a : App) (dayStart : Int → Int) (now : Int)
    (h : MidnightUnique a) :
    (scheduleMidnightReset dayStart now a).pending.filter
        (fun t => t.kind = TimerKind.midnight)
      = [⟨a.nextId, now + msUntilNextMidnight dayStart now, TimerKind.midnight⟩] ∧
    (scheduleMidnightReset dayStart now a).midnightTimer = some a.nextId ∧
    (scheduleMidnightReset dayStart now a).nextId = a.nextId + 1 ∧
    (scheduleMidnightReset dayStart now a).sys = a.sys := by
  unfold scheduleMidnightReset setTimeout
  refine ⟨?_, ?_, ?_, ?_⟩
  · simp only [List.filter_append, cleared_midnight_nil a h]
    simp [clearTimeout_nextId]
  · simp [clearTimeout_nextId]
  · simp [clearTimeout_nextId]
  · simp [clearTimeout_sys]

/-- C1 counterexample: `loadOrInit` adopts a persisted record for today
with `version` 1 without validating its `levels`, so a stored value of
25 with `maxLevels = 20` is adopted verbatim and the bounds invariant is
violated right after `loadOrInitialize` returns `true`. -/
theorem C1_cex :
    (loadOrInit "2023-01-02" 5 badStoreC1).1 = true ∧
    ¬ StateInv (loadOrInit "2023-01-02" 5 badStoreC1).2.st := by
  decide

/-- C1 amended: the invariant `levels.length = LANES ∧ ∀ v, 0 ≤ v ≤
maxLevels` holds after construction and is preserved by `increment`,
`decrement`, `resetToday`, `resetForNewDay`, and `toggleLock`; after
`loadOrInit` it holds whenever the call fell back to `resetForNewDay`
(returned `false`), and on adoption only under the extra assumption that
the stored record itself satisfies the bounds — the source adopts
`data.levels` without validation. -/
theorem C1_invariant (s : Sys) (lane now : Int) (today : String)
    (h : StateInv s.st) :
    StateInv (initState now) ∧
    StateInv ((increment lane now s).2.st) ∧
    StateInv ((decrement lane now s).2.st) ∧
    StateInv ((resetToday now s).st) ∧
    StateInv ((resetForNewDay today now s).st) ∧
    StateInv ((toggleLock now s).2.st) ∧
    ((loadOrInit today now s).1 = false →
      StateInv ((loadOrInit today now s).2.st)) ∧
    (∀ r, s.store = some (Blob.record r) → r.dateKey = some today →
      r.version = some 1 → r.levels.length = LANES →
      (∀ v ∈ r.levels, 0 ≤ v ∧ v ≤ jsOrInt r.maxLevels MAX_LEVELS) →
      StateInv ((loadOrInit today now s).2.st)) := by
  refine ⟨?_, ?_, ?_, ?_, ?_, ?_, ?_, ?_⟩
  · exact stateInv_replicate_zero rfl (show (0:Int) ≤ MAX_LEVELS by decide)
  · unfold increment
    split
    · exact h
    · split
      next v heq =>
        split
        next hlt =>
          have hv := h.2 v (List.get?_mem heq)
          exact stateInv_set h ⟨by omega, by omega⟩
        next => exact h
      next => exact h
  · unfold decrement
    split
    · exact h
    · split
      next v heq =>
        split
        next hlt =>
          have hv := h.2 v (List.get?_mem heq)
          exact stateInv_set h ⟨by omega, by omega⟩
        next => exact h
      next => exact h
  · exact stateInv_replicate_zero rfl
      (show (0:Int) ≤ s.st.maxLevels from maxLevels_nonneg_of_inv h)
  · exact stateInv_replicate_zero rfl
      (show (0:Int) ≤ s.st.maxLevels from maxLevels_nonneg_of_inv h)
  · exact ⟨h.1, h.2⟩
  · intro hf
    have hna : ∀ r, s.store = some (Blob.record r) →
        ¬(r.dateKey = some today ∧ r.version = some 1) := by
      intro r hr hc
      rw [loadOrInit_adopt hr hc.1 hc.2] at hf
      cases hf
    rw [loadOrInit_reset hna]
    exact stateInv_replicate_zero rfl
      (show (0:Int) ≤ s.st.maxLevels from maxLevels_nonneg_of_inv h)
  · intro r hr hd hv hlen hbnd
    rw [loadOrInit_adopt hr hd hv]
    exact ⟨hlen, hbnd⟩

/-- Witness for C1's amended theorem: the invariant survives a concrete
`increment` on a fresh state. -/
theorem C1_invariant_witness :
    StateInv ((increment 0 1 freshSysC1).2.st) :=
  (C1_invariant freshSysC1 0 1 "2023-01-02" (by decide)).2.1

/-- C2 counterexample: in a locked state, `resetToday()` is not a no-op —
it zeroes the lanes and restamps `lastUpdated` (the source's `resetToday`
and `resetForNewDay` have no `isLocked` check), contradicting the claim
that every mutation attempted while locked leaves the state unchanged. -/
theorem C2_cex :
    lockedSysC2.st.isLocked = true ∧
    (resetToday 7 lockedSysC2).st.levels ≠ lockedSysC2.st.levels ∧
    (resetToday 7 lockedSysC2).st.lastUpdated ≠ lockedSysC2.st.lastUpdated ∧
    (resetForNewDay "2023-05-06" 7 lockedSysC2).st.dateKey ≠ lockedSysC2.st.dateKey := by
  decide

/-- C2 amended: while locked, `increment` and `decrement` return `false`
and leave the entire system (levels, dateKey, lastUpdated, store)
unchanged, but `resetToday` and `resetForNewDay` are not lock-gated:
they zero all lanes, restamp `lastUpdated`, and persist even when
locked. -/
theorem C2_locked_mutations (s : Sys) (lane now : Int) (today : String)
    (h : s.st.isLocked = true) :
    increment lane now s = (false, s) ∧
    decrement lane now s = (false, s) ∧
    (resetToday now s).st.levels = List.replicate LANES 0 ∧
    (resetToday now s).st.lastUpdated = now ∧
    (resetForNewDay today now s).st.levels = List.replicate LANES 0 ∧
    (resetForNewDay today now s).st.dateKey = today := by
  refine ⟨?_, ?_, rfl, rfl, rfl, rfl⟩
  · unfold increment
    rw [if_pos (Or.inl (by rw [h]))]
  · unfold decrement
    rw [if_pos (Or.inl (by rw [h]))]

/-- Witness for C2's amended theorem at a concrete locked state. -/
theorem C2_locked_mutations_witness :
    increment 0 7 lockedSysC2 = (false, lockedSysC2) :=
  (C2_locked_mutations lockedSysC2 0 7 "2023-05-06" rfl).1

/-- C3: under the data-model invariant, `increment(lane)` returns
`false` and changes nothing exactly when the state is locked, `lane` is
outside `[0, LANES)`, or the lane already sits at `maxLevels`; otherwise
it bumps the lane by one, stamps `lastUpdated := now`, persists via
`save`, and returns `true`. `decrement` is symmetric at the lower bound
0. -/
theorem C3_increment_decrement (s : Sys) (lane now : Int)
    (h : StateInv s.st) :
    ((s.st.isLocked = true ∨ lane < 0 ∨ (LANES : Int) ≤ lane ∨
        s.st.levels.get? lane.toNat = some s.st.maxLevels) →
      increment lane now s = (false, s)) ∧
    (s.st.isLocked = false → 0 ≤ lane → lane < (LANES : Int) →
      s.st.levels.get? lane.toNat ≠ some s.st.maxLevels →
      ∃ v, s.st.levels.get? lane.toNat = some v ∧
        increment lane now s = (true, save now
          { s with st :=
            { s.st with
                levels := s.st.levels.set lane.toNat (v + 1)
                lastUpdated := now } })) ∧
    ((s.st.isLocked = true ∨ lane < 0 ∨ (LANES : Int) ≤ lane ∨
        s.st.levels.get? lane.toNat = some 0) →
      decrement lane now s = (false, s)) ∧
    (s.st.isLocked = false → 0 ≤ lane → lane < (LANES : Int) →
      s.st.levels.get? lane.toNat ≠ some 0 →
      ∃ v, s.st.levels.get? lane.toNat = some v ∧
        decrement lane now s = (true, save now
          { s with st :=
            { s.st with
                levels := s.st.levels.set lane.toNat (v - 1)
                lastUpdated := now } })) := by
  have hlen : s.st.levels.length = LANES := h.1
  refine ⟨?_, ?_, ?_, ?_⟩
  · rintro (hg | hg | hg | hg)
    · unfold increment
      rw [if_pos (Or.inl (by rw [hg]))]
    · unfold increment
      rw [if_pos (Or.inr (Or.inl hg))]
    · unfold increment
      rw [if_pos (Or.inr (Or.inr hg))]
    · by_cases hk : s.st.isLocked = true
      · unfold increment
        rw [if_pos (Or.inl (by rw [hk]))]
      · by_cases h0 : lane < 0
        · unfold increment
          rw [if_pos (Or.inr (Or.inl h0))]
        · by_cases h6 : (LANES : Int) ≤ lane
          · unfold increment
            rw [if_pos (Or.inr (Or.inr h6))]
          · unfold increment
            rw [if_neg (by simp [hk, h0, h6])]
            rw [hg]
            simp
  · intro hk h0 h6 hne
    have h6x : lane < 6 := by simpa [LANES] using h6
    have hi : lane.toNat < s.st.levels.length := by
      rw [hlen]; show lane.toNat < 6; omega
    unfold increment
    rw [if_neg (by simp [hk, h0, h6])]
    match heq : s.st.levels.get? lane.toNat with
    | some v =>
      have hvm := h.2 v (List.get?_mem heq)
      have hvne : v ≠ s.st.maxLevels := fun he => hne (by rw [heq, he])
      have hlt : v < s.st.maxLevels := by omega
      exact ⟨v, rfl, by simp [hlt]⟩
    | none =>
      rw [List.get?_eq_get hi] at heq
      cases heq
  · rintro (hg | hg | hg | hg)
    · unfold decrement
      rw [if_pos (Or.inl (by rw [hg]))]
    · unfold decrement
      rw [if_pos (Or.inr (Or.inl hg))]
    · unfold decrement
      rw [if_pos (Or.inr (Or.inr hg))]
    · by_cases hk : s.st.isLocked = true
      · unfold decrement
        rw [if_pos (Or.inl (by rw [hk]))]
      · by_cases h0 : lane < 0
        · unfold decrement
          rw [if_pos (Or.inr (Or.inl h0))]
        · by_cases h6 : (LANES : Int) ≤ lane
          · unfold decrement
            rw [if_pos (Or.inr (Or.inr h6))]
          · unfold decrement
            rw [if_neg (by simp [hk, h0, h6])]
            rw [hg]
            simp
  · intro hk h0 h6 hne
    have h6x : lane < 6 := by simpa [LANES] using h6
    have hi : lane.toNat < s.st.levels.length := by
      rw [hlen]; show lane.toNat < 6; omega
    unfold decrement
    rw [if_neg (by simp [hk, h0, h6])]
    match heq : s.st.levels.get? lane.toNat with
    | some v =>
      have hvm := h.2 v (List.get?_mem heq)
      have hvne : v ≠ 0 := fun he => hne (by rw [heq, he])
      have hlt : 0 < v := by omega
      exact ⟨v, rfl, by simp [hlt]⟩
    | none =>
      rw [List.get?_eq_get hi] at heq
      cases heq

/-- Witness for C3 at a concrete state: incrementing the lane already at
`maxLevels = 20` fails and changes nothing. -/
theorem C3_increment_decrement_witness :
    increment 2 9 sysC3 = (false, sysC3) :=
  (C3_increment_decrement sysC3 2 9 (by decide)).1 (Or.inr (Or.inr (Or.inr (by decide))))

/-- C4: `resetToday()` zeroes every lane, keeps `dateKey`, and persists;
`resetForNewDay()` zeroes every lane, sets `dateKey` to `todayKey()`
(the `today` parameter), and persists. -/
theorem C4_resets (s : Sys) (today : String) (now : Int) :
    (resetToday now s).st.levels = List.replicate LANES 0 ∧
    (resetToday now s).st.dateKey = s.st.dateKey ∧
    (resetToday now s).store
      = some (Blob.record (saveRecord now (resetToday now s).st)) ∧
    (resetForNewDay today now s).st.levels = List.replicate LANES 0 ∧
    (resetForNewDay today now s).st.dateKey = today ∧
    (resetForNewDay today now s).store
      = some (Blob.record (saveRecord now (resetForNewDay today now s).st)) :=
  ⟨rfl, rfl, rfl, rfl, rfl, rfl⟩

/-- C5: `loadOrInit` returns `true` and adopts the stored record exactly
when the blob parses to a record whose `dateKey` equals today's key and
whose `version` is 1; on any other content (missing, corrupt, stale day,
wrong version) it falls back to `resetForNewDay()` — a fresh zeroed
state for today — and returns `false`. The embedding is total, so no
exception escapes. -/
theorem C5_loadOrInit_adoption (s : Sys) (today : String) (now : Int) :
    ((loadOrInit today now s).1 = true ↔
      ∃ r, s.store = some (Blob.record r) ∧
        r.dateKey = some today ∧ r.version = some 1) ∧
    (∀ r, s.store = some (Blob.record r) → r.dateKey = some today →
      r.version = some 1 →
      loadOrInit today now s = (true,
        { s with st :=
          { levels := r.levels
            maxLevels := jsOrInt r.maxLevels MAX_LEVELS
            timezone := jsOrStr r.tz TIMEZONE
            dateKey := today
            lastUpdated := r.lastUpdated
            isLocked := s.st.isLocked } })) ∧
    ((loadOrInit today now s).1 = false →
      loadOrInit today now s = (false, resetForNewDay today now s)) ∧
    ((loadOrInit today now s).1 = false →
      (loadOrInit today now s).2.st.levels = List.replicate LANES 0 ∧
      (loadOrInit today now s).2.st.dateKey = today) := by
  refine ⟨loadOrInit_fst_true_iff s today now,
    fun r hs hd hv => loadOrInit_adopt hs hd hv, ?_, ?_⟩
  · intro hf
    apply loadOrInit_reset
    intro r hr ⟨hd, hv⟩
    rw [loadOrInit_adopt hr hd hv] at hf
    cases hf
  · intro hf
    have he : loadOrInit today now s = (false, resetForNewDay today now s) := by
      apply loadOrInit_reset
      intro r hr ⟨hd, hv⟩
      rw [loadOrInit_adopt hr hd hv] at hf
      cases hf
    rw [he]
    exact ⟨rfl, rfl⟩

/-- Witness for C5: a record stored under `dateKey = "2023-01-01"` loaded
on `"2023-01-02"` is not adopted — the result is the fresh zeroed state
for today, not `[5,0,0,0,0,0]`. -/
theorem C5_loadOrInit_adoption_witness :
    (loadOrInit "2023-01-02" 3 staleSysC5).2.st.levels = List.replicate LANES 0 ∧
    (loadOrInit "2023-01-02" 3 staleSysC5).2.st.dateKey = "2023-01-02" :=
  (C5_loadOrInit_adoption staleSysC5 "2023-01-02" 3).2.2.2 (by decide)

/-- C6: on a state whose `dateKey` equals today's key, `save()` followed
by `loadOrInit()` adopts the stored record and reproduces `levels`,
`maxLevels`, and `timezone` exactly. The hypotheses `maxLevels ≠ 0` and
`timezone ≠ ""` exclude only values no constructible state ever has, as
the two closing conjuncts show: the `||`-defaulting in `loadOrInit`
never produces them. -/
theorem C6_save_load_roundtrip (s : Sys) (today : String) (now now2 : Int)
    (h1 : s.st.dateKey = today) (h2 : s.st.maxLevels ≠ 0)
    (h3 : s.st.timezone ≠ "") :
    (loadOrInit today now2 (save now s)).1 = true ∧
    (loadOrInit today now2 (save now s)).2.st.levels = s.st.levels ∧
    (loadOrInit today now2 (save now s)).2.st.maxLevels = s.st.maxLevels ∧
    (loadOrInit today now2 (save now s)).2.st.timezone = s.st.timezone ∧
    (∀ m, jsOrInt m MAX_LEVELS ≠ 0) ∧
    (∀ t, jsOrStr t TIMEZONE ≠ "") := by
  have hadopt := @loadOrInit_adopt (save now s) (saveRecord now s.st)
    today now2 rfl (by simp [saveRecord, h1]) rfl
  rw [hadopt]
  refine ⟨rfl, rfl, ?_, ?_, ?_, ?_⟩
  · simp [saveRecord, jsOrInt, h2]
  · simp [saveRecord, jsOrStr, h3]
  · intro m
    cases m with
    | none => decide
    | some m0 =>
      show (if m0 = 0 then MAX_LEVELS else m0) ≠ 0
      by_cases hm : m0 = 0
      · rw [if_pos hm]; decide
      · rw [if_neg hm]; exact hm
  · intro t
    cases t with
    | none => decide
    | some t0 =>
      show (if t0 = "" then TIMEZONE else t0) ≠ ""
      by_cases ht : t0 = ""
      · rw [if_pos ht]; decide
      · rw [if_neg ht]; exact ht

/-- Witness for C6 at a concrete state for day `2023-05-05`. -/
theorem C6_save_load_roundtrip_witness :
    (loadOrInit "2023-05-05" 9 (save 8 sysC6)).2.st.levels = [1, 2, 3, 4, 5, 6] :=
  (C6_save_load_roundtrip sysC6 "2023-05-05" 8 9 rfl (by decide) (by decide)).2.1

/-- C7: the scheduling half of the claim holds (the armed delay and the
cancel-before-arm discipline are proved in `scheduleMidnightReset_spec`),
but the fired callback does not re-arm: after `this.resetForNewDay()`
the call `this.render()` (src/app.js line 153) throws a TypeError
because `ScoreboardState` has no `render` method, so the
`this.scheduleMidnightReset()` on line 154 is never reached. Concrete
run: one midnight timer is pending after arming; at its fire time the
rollover happens (lanes zeroed, `dateKey` advanced) but the pending
midnight-timer count drops to 0 instead of returning to 1. -/
theorem C7_fire_no_rearm :
    pendingCount TimerKind.midnight
      (scheduleMidnightReset (fun t => t - t % DAY_MS) 100 appC7) = 1 ∧
    (fireMidnight "2023-01-03" 86400000 1
      (scheduleMidnightReset (fun t => t - t % DAY_MS) 100 appC7)).sys.st.levels
      = List.replicate LANES 0 ∧
    (fireMidnight "2023-01-03" 86400000 1
      (scheduleMidnightReset (fun t => t - t % DAY_MS) 100 appC7)).sys.st.dateKey
      = "2023-01-03" ∧
    pendingCount TimerKind.midnight
      (fireMidnight "2023-01-03" 86400000 1
        (scheduleMidnightReset (fun t => t - t % DAY_MS) 100 appC7)) = 0 := by
  decide

/-- C8 counterexample: two visibility-regain events one millisecond
apart leave TWO pending reconciliation timers — the handler never calls
`clearTimeout` on the previous one, so it is not a cancel-and-replace
debounce and both timers run the `todayKey`/`dateKey` comparison. -/
theorem C8_cex :
    pendingCount TimerKind.visibility
      (visibilityShow 2 (visibilityShow 1 appC8)) = 2 ∧
    (visibilityShow 2 (visibilityShow 1 appC8)).pending
      = [⟨1, 1001, TimerKind.visibility⟩, ⟨2, 1002, TimerKind.visibility⟩] ∧
    (visibilityShow 2 (visibilityShow 1 appC8)).visibilityTimer = some 2 := by
  decide

/-- C8 amended: each visibility-regain event arms one new reconciliation
timer 1000 ms out and overwrites only the handle field; previously
pending reconciliation timers are left pending (the count strictly
grows), so several can coexist. A later-firing timer whose `dateKey`
already equals today leaves the state untouched, which is why the
missing cancellation does not cause a double rollover. -/
theorem C8_visibility_no_cancel (a : App) (now now2 : Int) (today : String)
    (id : Nat) :
    (visibilityShow now a).pending
      = a.pending ++ [⟨a.nextId, now + 1000, TimerKind.visibility⟩] ∧
    (visibilityShow now a).visibilityTimer = some a.nextId ∧
    pendingCount TimerKind.visibility (visibilityShow now a)
      = pendingCount TimerKind.visibility a + 1 ∧
    (a.sys.st.dateKey = today → (fireVisibility today now2 id a).sys = a.sys) := by
  refine ⟨rfl, rfl, ?_, ?_⟩
  · unfold pendingCount visibilityShow setTimeout
    rw [List.filter_append]
    simp
  · intro hd
    unfold fireVisibility
    rw [if_neg (by simp [hd])]

/-- Witness for C8's amended theorem: a fired reconciliation timer whose
`dateKey` already equals today's key leaves the scoreboard unchanged. -/
theorem C8_visibility_no_cancel_witness :
    (fireVisibility "" 5 1 appC8).sys = appC8.sys :=
  (C8_visibility_no_cancel appC8 1 5 "" 1).2.2.2 rfl

/-- C9: `toggleLock()` is never gated by the lock: from any state it
flips `isLocked`, persists, and returns the new flag; two consecutive
calls restore the original lock state. -/
theorem C9_toggleLock (s : Sys) (now now2 : Int) :
    (toggleLock now s).1 = !s.st.isLocked ∧
    (toggleLock now s).2.st.isLocked = !s.st.isLocked ∧
    (toggleLock now s).2.st.levels = s.st.levels ∧
    (toggleLock now s).2.store
      = some (Blob.record (saveRecord now (toggleLock now s).2.st)) ∧
    (toggleLock now2 (toggleLock now s).2).2.st.isLocked = s.st.isLocked := by
  refine ⟨rfl, rfl, rfl, rfl, ?_⟩
  simp [toggleLock, save]

/-- C10: whenever `increment`/`decrement` returns `false`, it performed
no storage write and left the whole in-memory state (levels, dateKey,
lastUpdated, isLocked) untouched: the result system equals the input. -/
theorem C10_failed_mutation_frame (s : Sys) (lane now : Int) :
    ((increment lane now s).1 = false → (increment lane now s).2 = s) ∧
    ((decrement lane now s).1 = false → (decrement lane now s).2 = s) := by
  constructor
  · unfold increment
    split
    · intro _; rfl
    · split
      · split
        · intro hf; simp at hf
        · intro _; rfl
      · intro _; rfl
  · unfold decrement
    split
    · intro _; rfl
    · split
      · split
        · intro hf; simp at hf
        · intro _; rfl
      · intro _; rfl

/-- Witness for C10 at a concrete failing call: lane 9 is out of range,
so `increment` returns `false` and the system is exactly as before. -/
theorem C10_failed_mutation_frame_witness :
    (increment 9 3 sysC10).2 = sysC10 :=
  (C10_failed_mutation_frame sysC10 9 3).1 (by decide)
